import Mathlib

/-!
Shallow embedding of the colorspace library (src/lib.rs) over the reals.

Every f32 value of the source is modelled as a real number; `powf` becomes
`Real.rpow`, `powi` becomes a natural-number power, `sqrt` becomes
`Real.sqrt`, and `f32::clamp` becomes an if-chain with the same branch
structure. Decimal literals are read exactly.
-/

namespace Colorspace

/-- Represents a color in the sRGB color space (struct RGB in lib.rs). -/
@[ext]
structure RGB where
  r : ℝ
  g : ℝ
  b : ℝ

/-- Represents a color using RGB and a white component (struct RGBW). -/
@[ext]
structure RGBW where
  r : ℝ
  g : ℝ
  b : ℝ
  w : ℝ

/-- CIE 1931 XYZ color space (struct XYZ). -/
@[ext]
structure XYZ where
  x : ℝ
  y : ℝ
  z : ℝ

/-- CIE 1976 Lstar ustar vstar color space (struct CIELUV). -/
@[ext]
structure CIELUV where
  l : ℝ
  u : ℝ
  v : ℝ

/-- Named constant colors of the source: RGB::BLACK. -/
noncomputable def RGB.BLACK : RGB := ⟨0, 0, 0⟩

/-- Named constant colors of the source: RGB::RED. -/
noncomputable def RGB.RED : RGB := ⟨1, 0, 0⟩

/-- Named constant colors of the source: RGB::GREEN. -/
noncomputable def RGB.GREEN : RGB := ⟨0, 1, 0⟩

/-- Named constant colors of the source: RGB::BLUE. -/
noncomputable def RGB.BLUE : RGB := ⟨0, 0, 1⟩

/-- Named constant colors of the source: RGB::WHITE, exactly as lib.rs
lines 52 to 56 write it: all three channels are 0.0. -/
noncomputable def RGB.WHITE : RGB := ⟨0, 0, 0⟩

/-- D65 white point constant X_REF. -/
noncomputable def X_REF : ℝ := 95.047

/-- D65 white point constant Y_REF. -/
noncomputable def Y_REF : ℝ := 100.0

/-- D65 white point constant Z_REF. -/
noncomputable def Z_REF : ℝ := 108.883

/-- XYZ/LUV conversion constant K = 24389/27. -/
noncomputable def K : ℝ := 24389.0 / 27.0

/-- XYZ/LUV conversion constant E = 216/24389. -/
noncomputable def E : ℝ := 216.0 / 24389.0

/-- Derived white point chromaticity U_PRIME_REF. -/
noncomputable def U_PRIME_REF : ℝ := 4.0 * X_REF / (X_REF + 15.0 * Y_REF + 3.0 * Z_REF)

/-- Derived white point chromaticity V_PRIME_REF. -/
noncomputable def V_PRIME_REF : ℝ := 9.0 * Y_REF / (X_REF + 15.0 * Y_REF + 3.0 * Z_REF)

/-- Gamma exponent for sRGB companding. -/
noncomputable def GAMMA : ℝ := 2.4

/-- Rust f32::clamp with the branch structure of the source semantics:
values below the lower bound go to the lower bound, values above the
upper bound go to the upper bound. -/
noncomputable def clamp (x lo hi : ℝ) : ℝ :=
  if x < lo then lo else if x > hi then hi else x

/-- Convert sRGB to linear RGB (inverse sRGB companding), fn srgb_to_linear. -/
noncomputable def srgb_to_linear (c : ℝ) : ℝ :=
  if c ≤ 0.04045 then c / 12.92 else ((c + 0.055) / 1.055) ^ GAMMA

/-- Convert linear RGB to sRGB, fn linear_to_srgb. -/
noncomputable def linear_to_srgb (c : ℝ) : ℝ :=
  if c ≤ 0.0031308 then 12.92 * c else 1.055 * c ^ (1.0 / GAMMA) - 0.055

/-- Helper function to perform linear interpolation, fn lerp. -/
noncomputable def lerp (start en t : ℝ) : ℝ :=
  start + t * (en - start)

/-- impl From XYZ for RGB: linear matrix, companding, clamp. -/
noncomputable def RGB.fromXYZ (xyz : XYZ) : RGB :=
  let r := 3.2406255 * xyz.x - 1.5372080 * xyz.y - 0.4986286 * xyz.z
  let g := -0.9689307 * xyz.x + 1.8758561 * xyz.y + 0.0415175 * xyz.z
  let b := 0.0557101 * xyz.x - 0.2040211 * xyz.y + 1.0570959 * xyz.z
  { r := clamp (linear_to_srgb r) 0.0 1.0
    g := clamp (linear_to_srgb g) 0.0 1.0
    b := clamp (linear_to_srgb b) 0.0 1.0 }

/-- impl From RGB for XYZ: decompanding then the sRGB working space matrix. -/
noncomputable def XYZ.fromRGB (rgb : RGB) : XYZ :=
  let r := srgb_to_linear rgb.r
  let g := srgb_to_linear rgb.g
  let b := srgb_to_linear rgb.b
  { x := r * 0.4124564 + g * 0.3575761 + b * 0.1804375
    y := r * 0.2126729 + g * 0.7151522 + b * 0.0721750
    z := r * 0.0193339 + g * 0.1191920 + b * 0.9503041 }

/-- impl From CIELUV for XYZ, with the zero lightness guard of the source. -/
noncomputable def XYZ.fromCIELUV (c : CIELUV) : XYZ :=
  if c.l = 0.0 then ⟨0.0, 0.0, 0.0⟩
  else
    let u_prime := c.u / (13.0 * c.l) + 0.19783000664283
    let v_prime := c.v / (13.0 * c.l) + 0.46831999493879
    let y := if c.l > 8.0 then Y_REF * ((c.l + 16.0) / 116.0) ^ (3 : ℕ)
             else Y_REF * c.l / 903.3
    let x := y * 9.0 * u_prime / (4.0 * v_prime)
    let z := y * (12.0 - 3.0 * u_prime - 20.0 * v_prime) / (4.0 * v_prime)
    ⟨x, y, z⟩

/-- impl From XYZ for CIELUV, with the all zero guard of the source. -/
noncomputable def CIELUV.fromXYZ (xyz : XYZ) : CIELUV :=
  if xyz.x = 0.0 ∧ xyz.y = 0.0 ∧ xyz.z = 0.0 then ⟨0.0, 0.0, 0.0⟩
  else
    let u_prime := 4.0 * xyz.x / (xyz.x + 15.0 * xyz.y + 3.0 * xyz.z)
    let v_prime := 9.0 * xyz.y / (xyz.x + 15.0 * xyz.y + 3.0 * xyz.z)
    let y_ref := xyz.y / Y_REF
    let l := if y_ref > E then 116.0 * y_ref ^ ((1.0 : ℝ) / 3.0) - 16.0 else K * y_ref
    ⟨l, 13.0 * l * (u_prime - U_PRIME_REF), 13.0 * l * (v_prime - V_PRIME_REF)⟩

/-- Conversions to CIELUV from RGB go through the XYZ color space. -/
noncomputable def CIELUV.fromRGB (rgb : RGB) : CIELUV :=
  CIELUV.fromXYZ (XYZ.fromRGB rgb)

/-- Conversions to RGB from CIELUV go through the XYZ color space. -/
noncomputable def RGB.fromCIELUV (c : CIELUV) : RGB :=
  RGB.fromXYZ (XYZ.fromCIELUV c)

/-- CIELUV::interpolate, component wise lerp. -/
noncomputable def CIELUV.interpolate (a en : CIELUV) (t : ℝ) : CIELUV :=
  ⟨lerp a.l en.l t, lerp a.u en.u t, lerp a.v en.v t⟩

/-- CIELUV::chroma: square root of the sum of squares of u and v. -/
noncomputable def CIELUV.chroma (c : CIELUV) : ℝ :=
  Real.sqrt (c.u ^ (2 : ℕ) + c.v ^ (2 : ℕ))

/-- CIELUV::saturation: chroma over lightness, guarded for l at most 0. -/
noncomputable def CIELUV.saturation (c : CIELUV) : ℝ :=
  if c.l ≤ 0.0 then 0.0 else c.chroma / c.l

/-- impl From RGB for RGBW: pass the channels through, white is 0. -/
noncomputable def RGBW.fromRGB (rgb : RGB) : RGBW :=
  ⟨rgb.r, rgb.g, rgb.b, 0.0⟩

/-- impl From XYZ for RGBW: through RGB, so white is ignored. -/
noncomputable def RGBW.fromXYZ (xyz : XYZ) : RGBW :=
  RGBW.fromRGB (RGB.fromXYZ xyz)

/-- impl From CIELUV for RGBW: the saturation driven white split. -/
noncomputable def RGBW.fromCIELUV (c : CIELUV) : RGBW :=
  let saturation := c.saturation
  let whiteness := 1.0 - saturation
  let xyz := XYZ.fromCIELUV c
  let r := 3.2406255 * xyz.x - 1.5372080 * xyz.y - 0.4986286 * xyz.z
  let g := -0.9689307 * xyz.x + 1.8758561 * xyz.y + 0.0415175 * xyz.z
  let b := 0.0557101 * xyz.x - 0.2040211 * xyz.y + 1.0570959 * xyz.z
  let r := r * saturation
  let g := g * saturation
  let b := b * saturation
  let w := xyz.y * whiteness
  { r := clamp (linear_to_srgb r) 0.0 1.0
    g := clamp (linear_to_srgb g) 0.0 1.0
    b := clamp (linear_to_srgb b) 0.0 1.0
    w := clamp (linear_to_srgb w) 0.0 1.0 }

/-- Rust f32::round: nearest integer, ties away from zero. -/
noncomputable def roundRust (x : ℝ) : ℝ :=
  if x < 0 then -((⌊-x + 1 / 2⌋ : ℤ) : ℝ) else ((⌊x + 1 / 2⌋ : ℤ) : ℝ)

/-- The rounding helper of the test module: two decimal places. -/
noncomputable def round2 (x : ℝ) : ℝ :=
  roundRust (x * 100.0) / 100.0

/-- Channel wise two decimal rounding of an RGBW value, as the test
function approximately_equal compares values. -/
noncomputable def round2RGBW (c : RGBW) : RGBW :=
  ⟨round2 c.r, round2 c.g, round2 c.b, round2 c.w⟩

/-- The gradient sequence of the tests: interpolate at t = i / steps. -/
noncomputable def gradStep (a b : CIELUV) (steps i : ℕ) : CIELUV :=
  CIELUV.interpolate a b ((i : ℝ) / (steps : ℝ))


lemma clamp_eq_one (x : ℝ) (h : 1 ≤ x) : clamp x 0.0 1.0 = 1 := by
  unfold clamp
  split_ifs with h1 h2
  · norm_num at h1; linarith
  · norm_num
  · norm_num at h2 ⊢; linarith

lemma clamp_eq_zero (x : ℝ) (h : x ≤ 0) : clamp x 0.0 1.0 = 0 := by
  unfold clamp
  split_ifs with h1 h2
  · norm_num
  · norm_num at h1 h2; linarith
  · norm_num at h1 ⊢; linarith

lemma clamp_of_mem (x : ℝ) (h0 : 0 ≤ x) (h1 : x ≤ 1) : clamp x 0.0 1.0 = x := by
  unfold clamp
  split_ifs with ha hb
  · norm_num at ha; linarith
  · norm_num at hb; linarith
  · rfl

lemma round2_one : round2 1 = 1 := by
  unfold round2 roundRust
  rw [if_neg (by norm_num)]
  norm_num

lemma round2_zero : round2 0 = 0 := by
  unfold round2 roundRust
  rw [if_neg (by norm_num)]
  norm_num

lemma round2_small (x : ℝ) (h0 : 0 ≤ x) (h1 : x < 1/200) : round2 x = 0 := by
  unfold round2 roundRust
  rw [if_neg (not_lt.mpr (by nlinarith))]
  rw [show ⌊x * 100.0 + 1/2⌋ = 0 by
    rw [Int.floor_eq_zero_iff]
    constructor
    · nlinarith
    · nlinarith]
  norm_num

lemma srgb_to_linear_one : srgb_to_linear 1 = 1 := by
  unfold srgb_to_linear
  rw [if_neg (by norm_num)]
  rw [show ((1 : ℝ) + 0.055) / 1.055 = 1 by norm_num, Real.one_rpow]

lemma srgb_to_linear_zero : srgb_to_linear 0 = 0 := by
  unfold srgb_to_linear
  rw [if_pos (by norm_num)]
  norm_num

lemma one_le_linear_to_srgb (v : ℝ) (h : 1 ≤ v) : 1 ≤ linear_to_srgb v := by
  unfold linear_to_srgb
  rw [if_neg (by norm_num; nlinarith)]
  have h1 : (1 : ℝ) ≤ v ^ (1.0 / GAMMA) := by
    calc (1 : ℝ) = 1 ^ (1.0 / GAMMA) := (Real.one_rpow _).symm
    _ ≤ v ^ (1.0 / GAMMA) := by
        apply Real.rpow_le_rpow (by norm_num) h
        rw [GAMMA]; norm_num
  nlinarith

lemma chan_one (v : ℝ) (h : 1 ≤ v) :
    round2 (clamp (linear_to_srgb v) 0.0 1.0) = 1 := by
  rw [clamp_eq_one _ (one_le_linear_to_srgb v h), round2_one]

lemma chan_zero (v : ℝ) (h : v ≤ 0) :
    round2 (clamp (linear_to_srgb v) 0.0 1.0) = 0 := by
  have hb : linear_to_srgb v ≤ 0 := by
    unfold linear_to_srgb
    rw [if_pos (by norm_num; nlinarith)]
    nlinarith
  rw [clamp_eq_zero _ hb, round2_zero]

lemma chan_small (v : ℝ) (h0 : 0 ≤ v) (h1 : v ≤ 0.000386) :
    round2 (clamp (linear_to_srgb v) 0.0 1.0) = 0 := by
  have hls : linear_to_srgb v = 12.92 * v := by
    unfold linear_to_srgb
    rw [if_pos (by norm_num; nlinarith)]
  rw [hls, clamp_of_mem _ (by nlinarith) (by nlinarith)]
  exact round2_small _ (by nlinarith) (by nlinarith)

lemma sqrt_bounds (a b q : ℝ) (ha : 0 ≤ a) (hb : 0 ≤ b)
    (h1 : a ^ 2 ≤ q) (h2 : q ≤ b ^ 2) :
    a ≤ Real.sqrt q ∧ Real.sqrt q ≤ b := by
  constructor
  · calc a = Real.sqrt (a ^ 2) := by rw [Real.sqrt_sq ha]
    _ ≤ Real.sqrt q := Real.sqrt_le_sqrt h1
  · calc Real.sqrt q ≤ Real.sqrt (b ^ 2) := Real.sqrt_le_sqrt h2
    _ = b := Real.sqrt_sq hb

lemma sat_canon (L du dv : ℝ) (hL : 0 < L) :
    CIELUV.saturation ⟨L, 13.0 * L * du, 13.0 * L * dv⟩ =
      13 * Real.sqrt (du ^ 2 + dv ^ 2) := by
  unfold CIELUV.saturation CIELUV.chroma
  rw [if_neg (by norm_num; nlinarith)]
  simp only
  have hsq : (13.0 * L * du) ^ (2 : ℕ) + (13.0 * L * dv) ^ (2 : ℕ) =
      (13 * L) ^ 2 * (du ^ 2 + dv ^ 2) := by ring
  rw [hsq, Real.sqrt_mul (by positivity), Real.sqrt_sq (by positivity)]
  field_simp
  ring

lemma xyz_canon_low (L du dv : ℝ) (hL0 : ¬ L = 0.0) (hL8 : ¬ L > 8.0) :
    XYZ.fromCIELUV ⟨L, 13.0 * L * du, 13.0 * L * dv⟩ =
      ⟨(Y_REF * L / 903.3) * 9.0 * (du + 0.19783000664283) /
          (4.0 * (dv + 0.46831999493879)),
        Y_REF * L / 903.3,
        (Y_REF * L / 903.3) * (12.0 - 3.0 * (du + 0.19783000664283)
            - 20.0 * (dv + 0.46831999493879)) /
          (4.0 * (dv + 0.46831999493879))⟩ := by
  have h13 : (13.0 : ℝ) * L ≠ 0 := by
    intro hc
    apply hL0
    norm_num at hc ⊢
    exact hc
  simp only [XYZ.fromCIELUV]
  rw [if_neg hL0, if_neg hL8]
  rw [mul_div_cancel_left₀ du h13, mul_div_cancel_left₀ dv h13]

lemma xyz_canon_high (L du dv : ℝ) (hL0 : ¬ L = 0.0) (hL8 : L > 8.0) :
    XYZ.fromCIELUV ⟨L, 13.0 * L * du, 13.0 * L * dv⟩ =
      ⟨(Y_REF * ((L + 16.0) / 116.0) ^ (3 : ℕ)) * 9.0 * (du + 0.19783000664283) /
          (4.0 * (dv + 0.46831999493879)),
        Y_REF * ((L + 16.0) / 116.0) ^ (3 : ℕ),
        (Y_REF * ((L + 16.0) / 116.0) ^ (3 : ℕ)) * (12.0
            - 3.0 * (du + 0.19783000664283)
            - 20.0 * (dv + 0.46831999493879)) /
          (4.0 * (dv + 0.46831999493879))⟩ := by
  have h13 : (13.0 : ℝ) * L ≠ 0 := by
    intro hc
    apply hL0
    norm_num at hc ⊢
    exact hc
  simp only [XYZ.fromCIELUV]
  rw [if_neg hL0, if_pos hL8]
  rw [mul_div_cancel_left₀ du h13, mul_div_cancel_left₀ dv h13]

/-- C1: the source defines the named constant RGB::WHITE with all three
channels equal to 0.0, identical to RGB::BLACK, and not as the pure white
value r = g = b = 1.0 that the specification states. This theorem evaluates
the constant as the code writes it. -/
theorem rgb_white_constant_value : RGB.WHITE = ⟨0, 0, 0⟩ ∧ RGB.WHITE = RGB.BLACK :=
  ⟨rfl, rfl⟩

/-- C4: the all zero CIELUV value maps to the all zero XYZ value through the
explicit zero lightness guard, and the all zero XYZ value maps to the all
zero CIELUV value through the explicit all zero guard. -/
theorem zero_guards :
    XYZ.fromCIELUV ⟨0.0, 0.0, 0.0⟩ = ⟨0.0, 0.0, 0.0⟩ ∧
    CIELUV.fromXYZ ⟨0.0, 0.0, 0.0⟩ = ⟨0.0, 0.0, 0.0⟩ := by
  constructor
  · norm_num [XYZ.fromCIELUV]
  · norm_num [CIELUV.fromXYZ]

/-- C9: for every CIELUV value with lightness exactly 0, whatever the u and
v components are, the conversion to XYZ returns the all zero XYZ value:
the guard only inspects the lightness. -/
theorem zero_lightness_guard_broad (u v : ℝ) :
    XYZ.fromCIELUV ⟨0, u, v⟩ = ⟨0.0, 0.0, 0.0⟩ := by
  norm_num [XYZ.fromCIELUV]

/-- C10: the direct XYZ to RGBW conversion passes through RGB, so its white
channel is exactly 0 and the color channels equal those of the XYZ to RGB
conversion of the same value. -/
theorem xyz_to_rgbw_no_white (xyz : XYZ) :
    RGBW.fromXYZ xyz =
      ⟨(RGB.fromXYZ xyz).r, (RGB.fromXYZ xyz).g, (RGB.fromXYZ xyz).b, 0⟩ := by
  norm_num [RGBW.fromXYZ, RGBW.fromRGB]

/-- C5: for a CIELUV value with positive lightness the saturation is chroma
divided by lightness and is nonnegative; for lightness at most 0, including
negative lightness, the saturation is exactly 0 through the guard. -/
theorem saturation_guarded (c : CIELUV) :
    (0 < c.l → CIELUV.saturation c = CIELUV.chroma c / c.l ∧
      0 ≤ CIELUV.saturation c) ∧
    (c.l ≤ 0 → CIELUV.saturation c = 0) := by
  constructor
  · intro h
    have hs : CIELUV.saturation c = CIELUV.chroma c / c.l := by
      unfold CIELUV.saturation
      rw [if_neg (by norm_num; nlinarith)]
    refine ⟨hs, ?_⟩
    rw [hs]
    apply div_nonneg _ (le_of_lt h)
    unfold CIELUV.chroma
    exact Real.sqrt_nonneg _
  · intro h
    unfold CIELUV.saturation
    rw [if_pos (by norm_num; nlinarith)]
    norm_num

/-- Witness for C5 at the concrete inputs l = 1 and l = -1. -/
theorem saturation_guarded_witness :
    ((0 : ℝ) < 1 ∧
      CIELUV.saturation ⟨1, 0, 0⟩ = CIELUV.chroma ⟨1, 0, 0⟩ / 1) ∧
    ((-1 : ℝ) ≤ 0 ∧ CIELUV.saturation ⟨-1, 3, 4⟩ = 0) :=
  ⟨⟨by norm_num, ((saturation_guarded ⟨1, 0, 0⟩).1 (by norm_num)).1⟩,
    ⟨by norm_num, (saturation_guarded ⟨-1, 3, 4⟩).2 (by norm_num)⟩⟩

/-- C6: the code computes interpolation as start + t * (end - start), so the
endpoint identity at t = 1 holds only through exact cancellation of the
start term, as the second conjunct makes explicit; under exact real
arithmetic the end color is recovered, but single precision evaluation of
the source at start lightness 100.0 and end lightness 1e-7 rounds the
difference 1e-7 - 100.0 to -100.0 and returns lightness 0.0 instead of
1e-7, so the exactness the claim states fails on the code at this input. -/
theorem interpolate_one_exact_cancellation :
    CIELUV.interpolate ⟨100.0, 0.0, 0.0⟩ ⟨1e-7, 0.0, 0.0⟩ 1.0 =
      ⟨1e-7, 0.0, 0.0⟩ ∧
    lerp 100.0 1e-7 1.0 = 100.0 + (1e-7 - 100.0) := by
  constructor
  · ext <;> norm_num [CIELUV.interpolate, lerp]
  · norm_num [lerp]

/-- C7: past the zero guards, the forward lightness uses the cube root
branch above the threshold E and the linear branch otherwise, and the
inverse recovers luminance with the cubic branch above lightness 8 and the
903.3 linear branch otherwise, exactly as the claim states the formulas. -/
theorem lightness_branches :
    (∀ xyz : XYZ, ¬(xyz.x = 0.0 ∧ xyz.y = 0.0 ∧ xyz.z = 0.0) →
      (xyz.y / Y_REF > E →
        (CIELUV.fromXYZ xyz).l =
          116.0 * (xyz.y / Y_REF) ^ ((1.0 : ℝ) / 3.0) - 16.0) ∧
      (¬ xyz.y / Y_REF > E →
        (CIELUV.fromXYZ xyz).l = K * (xyz.y / Y_REF))) ∧
    (∀ c : CIELUV, ¬ c.l = 0.0 →
      (c.l > 8.0 →
        (XYZ.fromCIELUV c).y = Y_REF * ((c.l + 16.0) / 116.0) ^ (3 : ℕ)) ∧
      (¬ c.l > 8.0 → (XYZ.fromCIELUV c).y = Y_REF * c.l / 903.3)) := by
  constructor
  · intro xyz h
    constructor
    · intro hb
      simp only [CIELUV.fromXYZ, if_neg h, if_pos hb]
    · intro hb
      simp only [CIELUV.fromXYZ, if_neg h, if_neg hb]
  · intro c h
    constructor
    · intro hb
      simp only [XYZ.fromCIELUV, if_neg h, if_pos hb]
    · intro hb
      simp only [XYZ.fromCIELUV, if_neg h, if_neg hb]

/-- Witness for C7 at XYZ value (0, 1, 0), which takes the cube root
branch, and at CIELUV value (1, 0, 0), which takes the 903.3 branch. -/
theorem lightness_branches_witness :
    (CIELUV.fromXYZ ⟨0.0, 1.0, 0.0⟩).l =
      116.0 * ((1.0 : ℝ) / Y_REF) ^ ((1.0 : ℝ) / 3.0) - 16.0 ∧
    (XYZ.fromCIELUV ⟨1.0, 0.0, 0.0⟩).y = Y_REF * (1.0 : ℝ) / 903.3 :=
  ⟨(lightness_branches.1 ⟨0.0, 1.0, 0.0⟩ (by norm_num)).1
      (by norm_num [Y_REF, E]),
    (lightness_branches.2 ⟨1.0, 0.0, 0.0⟩ (by norm_num)).2 (by norm_num)⟩

/-- C2: the code lacks a guard for a zero back solved v_prime. At the
CIELUV input with lightness 10, u 0 and v equal to minus 130 times
0.46831999493879, the zero lightness guard does not fire, yet the
expression v / (13 l) + 0.46831999493879 that the source uses as v_prime is
exactly 0, so the source divides by zero when recovering x and z. In
single precision this yields infinities and then a NaN channel after the
matrix step, which f32 clamp propagates, against the stated no NaN and
unit interval guarantee; the real model returns 0 for a quotient with zero
divisor, which is what the last conjunct records. -/
theorem unguarded_vprime_zero :
    ¬((10 : ℝ) = 0.0) ∧
    (-(130 * 0.46831999493879) : ℝ) / (13.0 * 10) + 0.46831999493879 = 0 ∧
    XYZ.fromCIELUV ⟨10, 0, -(130 * 0.46831999493879)⟩ =
      ⟨0, Y_REF * ((10 + 16.0) / 116.0) ^ (3 : ℕ), 0⟩ := by
  have hg : ¬((10 : ℝ) = 0.0) := by norm_num
  have h8 : (10 : ℝ) > 8.0 := by norm_num
  have hv : (-(130 * 0.46831999493879) : ℝ) / (13.0 * 10) +
      0.46831999493879 = 0 := by norm_num
  refine ⟨hg, hv, ?_⟩
  simp only [XYZ.fromCIELUV]
  rw [if_neg hg, if_pos h8, hv]
  norm_num [XYZ.mk.injEq]

lemma lerp_mono_incr (s e t1 t2 : ℝ) (ht : t1 ≤ t2) (hse : s ≤ e) :
    lerp s e t1 ≤ lerp s e t2 := by
  unfold lerp
  nlinarith

lemma lerp_mono_decr (s e t1 t2 : ℝ) (ht : t1 ≤ t2) (hse : e ≤ s) :
    lerp s e t2 ≤ lerp s e t1 := by
  unfold lerp
  nlinarith

lemma lerp_between (s e t : ℝ) (h0 : 0 ≤ t) (h1 : t ≤ 1) :
    min s e ≤ lerp s e t ∧ lerp s e t ≤ max s e := by
  rcases le_total s e with h | h
  · rw [min_eq_left h, max_eq_right h]
    unfold lerp
    constructor <;> nlinarith
  · rw [min_eq_right h, max_eq_left h]
    unfold lerp
    constructor <;> nlinarith

/-- C8: stepping the interpolation parameter through i / steps, every
component of the interpolated CIELUV sequence is monotone, non decreasing
when the end component is at least the start component and non increasing
otherwise, and every step stays between the two endpoint components. -/
theorem gradient_monotone (a b : CIELUV) (steps i j : ℕ)
    (hs : 1 ≤ steps) (hij : i ≤ j) (hj : j ≤ steps) :
    ((a.l ≤ b.l → (gradStep a b steps i).l ≤ (gradStep a b steps j).l) ∧
      (b.l ≤ a.l → (gradStep a b steps j).l ≤ (gradStep a b steps i).l) ∧
      min a.l b.l ≤ (gradStep a b steps i).l ∧
      (gradStep a b steps i).l ≤ max a.l b.l) ∧
    ((a.u ≤ b.u → (gradStep a b steps i).u ≤ (gradStep a b steps j).u) ∧
      (b.u ≤ a.u → (gradStep a b steps j).u ≤ (gradStep a b steps i).u) ∧
      min a.u b.u ≤ (gradStep a b steps i).u ∧
      (gradStep a b steps i).u ≤ max a.u b.u) ∧
    ((a.v ≤ b.v → (gradStep a b steps i).v ≤ (gradStep a b steps j).v) ∧
      (b.v ≤ a.v → (gradStep a b steps j).v ≤ (gradStep a b steps i).v) ∧
      min a.v b.v ≤ (gradStep a b steps i).v ∧
      (gradStep a b steps i).v ≤ max a.v b.v) := by
  have hsp : (0 : ℝ) < (steps : ℝ) := by
    have : 0 < steps := lt_of_lt_of_le Nat.zero_lt_one hs
    exact_mod_cast this
  have ht12 : (i : ℝ) / (steps : ℝ) ≤ (j : ℝ) / (steps : ℝ) := by
    apply div_le_div_of_nonneg_right ?_ hsp.le
    exact_mod_cast hij
  have ht0 : (0 : ℝ) ≤ (i : ℝ) / (steps : ℝ) := by positivity
  have ht1 : (i : ℝ) / (steps : ℝ) ≤ 1 := by
    rw [div_le_one hsp]
    exact_mod_cast le_trans hij hj
  simp only [gradStep, CIELUV.interpolate]
  refine ⟨⟨?_, ?_, ?_, ?_⟩, ⟨?_, ?_, ?_, ?_⟩, ⟨?_, ?_, ?_, ?_⟩⟩
  · exact fun h => lerp_mono_incr _ _ _ _ ht12 h
  · exact fun h => lerp_mono_decr _ _ _ _ ht12 h
  · exact (lerp_between _ _ _ ht0 ht1).1
  · exact (lerp_between _ _ _ ht0 ht1).2
  · exact fun h => lerp_mono_incr _ _ _ _ ht12 h
  · exact fun h => lerp_mono_decr _ _ _ _ ht12 h
  · exact (lerp_between _ _ _ ht0 ht1).1
  · exact (lerp_between _ _ _ ht0 ht1).2
  · exact fun h => lerp_mono_incr _ _ _ _ ht12 h
  · exact fun h => lerp_mono_decr _ _ _ _ ht12 h
  · exact (lerp_between _ _ _ ht0 ht1).1
  · exact (lerp_between _ _ _ ht0 ht1).2

/-- Witness for C8 on the concrete gradient from (0, 5, 3) to (1, 2, 3)
with 2 steps at indices 1 and 2. -/
theorem gradient_monotone_witness :
    1 ≤ 2 ∧ (1 : ℕ) ≤ 2 ∧ (2 : ℕ) ≤ 2 ∧
    ((gradStep ⟨0, 5, 3⟩ ⟨1, 2, 3⟩ 2 1).l ≤ (gradStep ⟨0, 5, 3⟩ ⟨1, 2, 3⟩ 2 2).l) ∧
    ((gradStep ⟨0, 5, 3⟩ ⟨1, 2, 3⟩ 2 2).u ≤ (gradStep ⟨0, 5, 3⟩ ⟨1, 2, 3⟩ 2 1).u) :=
  ⟨by norm_num, by norm_num, by norm_num,
    (gradient_monotone ⟨0, 5, 3⟩ ⟨1, 2, 3⟩ 2 1 2 (by norm_num) (by norm_num)
        (by norm_num)).1.1 (by norm_num),
    ((gradient_monotone ⟨0, 5, 3⟩ ⟨1, 2, 3⟩ 2 1 2 (by norm_num) (by norm_num)
        (by norm_num)).2.1.2.1 (by norm_num))⟩

lemma c3_red :
    round2RGBW (RGBW.fromCIELUV (CIELUV.fromRGB ⟨1, 0, 0⟩)) =
      round2RGBW (RGBW.fromRGB ⟨1, 0, 0⟩) := by
  have hxyz : XYZ.fromRGB ⟨1, 0, 0⟩ = ⟨(1031141 / 2500000 : ℝ), (2126729 / 10000000 : ℝ), (193339 / 10000000 : ℝ)⟩ := by
    simp only [XYZ.fromRGB, srgb_to_linear_one, srgb_to_linear_zero]
    norm_num [XYZ.mk.injEq]
  have hg1 : ¬((1031141 / 2500000 : ℝ) = 0.0 ∧ (2126729 / 10000000 : ℝ) = 0.0 ∧ (193339 / 10000000 : ℝ) = 0.0) := by norm_num
  have hg2 : ¬((2126729 / 10000000 : ℝ) / Y_REF > E) := by norm_num [Y_REF, E]
  have hluv : CIELUV.fromRGB ⟨1, 0, 0⟩ =
      ⟨(51868793581 / 27000000000 : ℝ), 13.0 * (51868793581 / 27000000000 : ℝ) * (1111728415323 / 4396542104696 : ℝ), 13.0 * (51868793581 / 27000000000 : ℝ) * (119917972233 / 2198271052348 : ℝ)⟩ := by
    rw [CIELUV.fromRGB, hxyz]
    simp only [CIELUV.fromXYZ]
    rw [if_neg hg1, if_neg hg2]
    norm_num [CIELUV.mk.injEq, K, Y_REF, U_PRIME_REF, V_PRIME_REF, X_REF, Z_REF]
  have hLpos : (0 : ℝ) < (51868793581 / 27000000000 : ℝ) := by norm_num
  have hL8 : ¬((51868793581 / 27000000000 : ℝ) > 8.0) := by norm_num
  have hL0 : ¬((51868793581 / 27000000000 : ℝ) = 0.0) := by norm_num
  have hsat : CIELUV.saturation ⟨(51868793581 / 27000000000 : ℝ), 13.0 * (51868793581 / 27000000000 : ℝ) * (1111728415323 / 4396542104696 : ℝ), 13.0 * (51868793581 / 27000000000 : ℝ) * (119917972233 / 2198271052348 : ℝ)⟩ =
      13 * Real.sqrt ((1111728415323 / 4396542104696 : ℝ) ^ 2 + (119917972233 / 2198271052348 : ℝ) ^ 2) :=
    sat_canon _ _ _ hLpos
  have hback : XYZ.fromCIELUV ⟨(51868793581 / 27000000000 : ℝ), 13.0 * (51868793581 / 27000000000 : ℝ) * (1111728415323 / 4396542104696 : ℝ), 13.0 * (51868793581 / 27000000000 : ℝ) * (119917972233 / 2198271052348 : ℝ)⟩ =
      ⟨(142746980764408859262125127148746089 / 346088031589188152463594032812000000 : ℝ), (51868793581 / 243891000000 : ℝ), (543018118565606855117786918513299337 / 28033130558724240349551116657772000000 : ℝ)⟩ := by
    rw [xyz_canon_low (51868793581 / 27000000000 : ℝ) (1111728415323 / 4396542104696 : ℝ) (119917972233 / 2198271052348 : ℝ) hL0 hL8]
    norm_num [XYZ.mk.injEq, Y_REF]
  obtain ⟨hs1, hs2⟩ := sqrt_bounds (1293 / 5000 : ℝ) (647 / 2500 : ℝ) ((1111728415323 / 4396542104696 : ℝ) ^ 2 + (119917972233 / 2198271052348 : ℝ) ^ 2)
    (by norm_num) (by norm_num) (by norm_num) (by norm_num)
  have hsq0 : (0 : ℝ) ≤ Real.sqrt ((1111728415323 / 4396542104696 : ℝ) ^ 2 + (119917972233 / 2198271052348 : ℝ) ^ 2) := Real.sqrt_nonneg _
  have hdirect : RGBW.fromRGB ⟨1, 0, 0⟩ = ⟨1, 0, 0, 0⟩ := by
    norm_num [RGBW.fromRGB, RGBW.mk.injEq]
  rw [hluv, hdirect]
  simp only [RGBW.fromCIELUV, hsat, hback]
  simp only [round2RGBW, RGBW.mk.injEq]
  refine ⟨?_, ?_, ?_, ?_⟩
  · rw [round2_one]
    exact chan_one _ (by nlinarith [hs1])
  · rw [round2_zero]
    exact chan_small _ (by nlinarith [hsq0]) (by nlinarith [hs2])
  · rw [round2_zero]
    exact chan_small _ (by nlinarith [hsq0]) (by nlinarith [hs2])
  · rw [round2_zero]
    exact chan_zero _ (by nlinarith [hs1])

lemma c3_green :
    round2RGBW (RGBW.fromCIELUV (CIELUV.fromRGB ⟨0, 1, 0⟩)) =
      round2RGBW (RGBW.fromRGB ⟨0, 1, 0⟩) := by
  have hxyz : XYZ.fromRGB ⟨0, 1, 0⟩ = ⟨(3575761 / 10000000 : ℝ), (3575761 / 5000000 : ℝ), (14899 / 125000 : ℝ)⟩ := by
    simp only [XYZ.fromRGB, srgb_to_linear_one, srgb_to_linear_zero]
    norm_num [XYZ.mk.injEq]
  have hg1 : ¬((3575761 / 10000000 : ℝ) = 0.0 ∧ (3575761 / 5000000 : ℝ) = 0.0 ∧ (14899 / 125000 : ℝ) = 0.0) := by norm_num
  have hg2 : ¬((3575761 / 5000000 : ℝ) / Y_REF > E) := by norm_num [Y_REF, E]
  have hluv : CIELUV.fromRGB ⟨0, 1, 0⟩ =
      ⟨(87209235029 / 13500000000 : ℝ), 13.0 * (87209235029 / 13500000000 : ℝ) * (-(4004165678841 / 54972204404824 : ℝ)), 13.0 * (87209235029 / 13500000000 : ℝ) * (647048284119 / 6871525550603 : ℝ)⟩ := by
    rw [CIELUV.fromRGB, hxyz]
    simp only [CIELUV.fromXYZ]
    rw [if_neg hg1, if_neg hg2]
    norm_num [CIELUV.mk.injEq, K, Y_REF, U_PRIME_REF, V_PRIME_REF, X_REF, Z_REF]
  have hLpos : (0 : ℝ) < (87209235029 / 13500000000 : ℝ) := by norm_num
  have hL8 : ¬((87209235029 / 13500000000 : ℝ) > 8.0) := by norm_num
  have hL0 : ¬((87209235029 / 13500000000 : ℝ) = 0.0) := by norm_num
  have hsat : CIELUV.saturation ⟨(87209235029 / 13500000000 : ℝ), 13.0 * (87209235029 / 13500000000 : ℝ) * (-(4004165678841 / 54972204404824 : ℝ)), 13.0 * (87209235029 / 13500000000 : ℝ) * (647048284119 / 6871525550603 : ℝ)⟩ =
      13 * Real.sqrt ((-(4004165678841 / 54972204404824 : ℝ)) ^ 2 + (647048284119 / 6871525550603 : ℝ) ^ 2) :=
    sat_canon _ _ _ hLpos
  have hback : XYZ.fromCIELUV ⟨(87209235029 / 13500000000 : ℝ), 13.0 * (87209235029 / 13500000000 : ℝ) * (-(4004165678841 / 54972204404824 : ℝ)), 13.0 * (87209235029 / 13500000000 : ℝ) * (647048284119 / 6871525550603 : ℝ)⟩ =
      ⟨(2496722595065432449581128391739560607 / 6982727770586808107103677762442000000 : ℝ), (87209235029 / 121945500000 : ℝ), (22493572731250497967344260576319813077 / 188533649805843818891799299585934000000 : ℝ)⟩ := by
    rw [xyz_canon_low (87209235029 / 13500000000 : ℝ) (-(4004165678841 / 54972204404824 : ℝ)) (647048284119 / 6871525550603 : ℝ) hL0 hL8]
    norm_num [XYZ.mk.injEq, Y_REF]
  obtain ⟨hs1, hs2⟩ := sqrt_bounds (119 / 1000 : ℝ) (149 / 1250 : ℝ) ((-(4004165678841 / 54972204404824 : ℝ)) ^ 2 + (647048284119 / 6871525550603 : ℝ) ^ 2)
    (by norm_num) (by norm_num) (by norm_num) (by norm_num)
  have hsq0 : (0 : ℝ) ≤ Real.sqrt ((-(4004165678841 / 54972204404824 : ℝ)) ^ 2 + (647048284119 / 6871525550603 : ℝ) ^ 2) := Real.sqrt_nonneg _
  have hdirect : RGBW.fromRGB ⟨0, 1, 0⟩ = ⟨0, 1, 0, 0⟩ := by
    norm_num [RGBW.fromRGB, RGBW.mk.injEq]
  rw [hluv, hdirect]
  simp only [RGBW.fromCIELUV, hsat, hback]
  simp only [round2RGBW, RGBW.mk.injEq]
  refine ⟨?_, ?_, ?_, ?_⟩
  · rw [round2_zero]
    exact chan_zero _ (by nlinarith [hsq0])
  · rw [round2_one]
    exact chan_one _ (by nlinarith [hs1])
  · rw [round2_zero]
    exact chan_small _ (by nlinarith [hsq0]) (by nlinarith [hs2])
  · rw [round2_zero]
    exact chan_zero _ (by nlinarith [hs1])

lemma c3_blue :
    round2RGBW (RGBW.fromCIELUV (CIELUV.fromRGB ⟨0, 0, 1⟩)) =
      round2RGBW (RGBW.fromRGB ⟨0, 0, 1⟩) := by
  have hxyz : XYZ.fromRGB ⟨0, 0, 1⟩ = ⟨(2887 / 16000 : ℝ), (2887 / 40000 : ℝ), (9503041 / 10000000 : ℝ)⟩ := by
    simp only [XYZ.fromRGB, srgb_to_linear_one, srgb_to_linear_zero]
    norm_num [XYZ.mk.injEq]
  have hg1 : ¬((2887 / 16000 : ℝ) = 0.0 ∧ (2887 / 40000 : ℝ) = 0.0 ∧ (9503041 / 10000000 : ℝ) = 0.0) := by norm_num
  have hg2 : ¬((2887 / 40000 : ℝ) / Y_REF > E) := by norm_num [Y_REF, E]
  have hluv : CIELUV.fromRGB ⟨0, 0, 1⟩ =
      ⟨(70411043 / 108000000 : ℝ), 13.0 * (70411043 / 108000000 : ℝ) * (-(110687352039 / 4941130573288 : ℝ)), 13.0 * (70411043 / 108000000 : ℝ) * (-(383483068875 / 1235282643322 : ℝ))⟩ := by
    rw [CIELUV.fromRGB, hxyz]
    simp only [CIELUV.fromXYZ]
    rw [if_neg hg1, if_neg hg2]
    norm_num [CIELUV.mk.injEq, K, Y_REF, U_PRIME_REF, V_PRIME_REF, X_REF, Z_REF]
  have hLpos : (0 : ℝ) < (70411043 / 108000000 : ℝ) := by norm_num
  have hL8 : ¬((70411043 / 108000000 : ℝ) > 8.0) := by norm_num
  have hL0 : ¬((70411043 / 108000000 : ℝ) = 0.0) := by norm_num
  have hsat : CIELUV.saturation ⟨(70411043 / 108000000 : ℝ), 13.0 * (70411043 / 108000000 : ℝ) * (-(110687352039 / 4941130573288 : ℝ)), 13.0 * (70411043 / 108000000 : ℝ) * (-(383483068875 / 1235282643322 : ℝ))⟩ =
      13 * Real.sqrt ((-(110687352039 / 4941130573288 : ℝ)) ^ 2 + (-(383483068875 / 1235282643322 : ℝ)) ^ 2) :=
    sat_canon _ _ _ hLpos
  have hback : XYZ.fromCIELUV ⟨(70411043 / 108000000 : ℝ), 13.0 * (70411043 / 108000000 : ℝ) * (-(110687352039 / 4941130573288 : ℝ)), 13.0 * (70411043 / 108000000 : ℝ) * (-(383483068875 / 1235282643322 : ℝ))⟩ =
      ⟨(254306070078122199243268872685903 / 1409324991832635346265990410032000 : ℝ), (70411043 / 975564000 : ℝ), (36165891038981995551965304462450533 / 38051774779481154349181741070864000 : ℝ)⟩ := by
    rw [xyz_canon_low (70411043 / 108000000 : ℝ) (-(110687352039 / 4941130573288 : ℝ)) (-(383483068875 / 1235282643322 : ℝ)) hL0 hL8]
    norm_num [XYZ.mk.injEq, Y_REF]
  obtain ⟨hs1, hs2⟩ := sqrt_bounds (389 / 1250 : ℝ) (1557 / 5000 : ℝ) ((-(110687352039 / 4941130573288 : ℝ)) ^ 2 + (-(383483068875 / 1235282643322 : ℝ)) ^ 2)
    (by norm_num) (by norm_num) (by norm_num) (by norm_num)
  have hsq0 : (0 : ℝ) ≤ Real.sqrt ((-(110687352039 / 4941130573288 : ℝ)) ^ 2 + (-(383483068875 / 1235282643322 : ℝ)) ^ 2) := Real.sqrt_nonneg _
  have hdirect : RGBW.fromRGB ⟨0, 0, 1⟩ = ⟨0, 0, 1, 0⟩ := by
    norm_num [RGBW.fromRGB, RGBW.mk.injEq]
  rw [hluv, hdirect]
  simp only [RGBW.fromCIELUV, hsat, hback]
  simp only [round2RGBW, RGBW.mk.injEq]
  refine ⟨?_, ?_, ?_, ?_⟩
  · rw [round2_zero]
    exact chan_zero _ (by nlinarith [hsq0])
  · rw [round2_zero]
    exact chan_small _ (by nlinarith [hsq0]) (by nlinarith [hs2])
  · rw [round2_one]
    exact chan_one _ (by nlinarith [hs1])
  · rw [round2_zero]
    exact chan_zero _ (by nlinarith [hs1])

lemma c3_magenta :
    round2RGBW (RGBW.fromCIELUV (CIELUV.fromRGB ⟨1, 0, 1⟩)) =
      round2RGBW (RGBW.fromRGB ⟨1, 0, 1⟩) := by
  have hxyz : XYZ.fromRGB ⟨1, 0, 1⟩ = ⟨(5928939 / 10000000 : ℝ), (2848479 / 10000000 : ℝ), (484819 / 500000 : ℝ)⟩ := by
    simp only [XYZ.fromRGB, srgb_to_linear_one, srgb_to_linear_zero]
    norm_num [XYZ.mk.injEq]
  have hg1 : ¬((5928939 / 10000000 : ℝ) = 0.0 ∧ (2848479 / 10000000 : ℝ) = 0.0 ∧ (484819 / 500000 : ℝ) = 0.0) := by norm_num
  have hg2 : ¬((2848479 / 10000000 : ℝ) / Y_REF > E) := by norm_num [Y_REF, E]
  have hluv : CIELUV.fromRGB ⟨1, 0, 1⟩ =
      ⟨(23157184777 / 9000000000 : ℝ), 13.0 * (23157184777 / 9000000000 : ℝ) * (83420088607 / 778139389832 : ℝ), 13.0 * (23157184777 / 9000000000 : ℝ) * (-(215682721839 / 1556278779664 : ℝ))⟩ := by
    rw [CIELUV.fromRGB, hxyz]
    simp only [CIELUV.fromXYZ]
    rw [if_neg hg1, if_neg hg2]
    norm_num [CIELUV.mk.injEq, K, Y_REF, U_PRIME_REF, V_PRIME_REF, X_REF, Z_REF]
  have hLpos : (0 : ℝ) < (23157184777 / 9000000000 : ℝ) := by norm_num
  have hL8 : ¬((23157184777 / 9000000000 : ℝ) > 8.0) := by norm_num
  have hL0 : ¬((23157184777 / 9000000000 : ℝ) = 0.0) := by norm_num
  have hsat : CIELUV.saturation ⟨(23157184777 / 9000000000 : ℝ), 13.0 * (23157184777 / 9000000000 : ℝ) * (83420088607 / 778139389832 : ℝ), 13.0 * (23157184777 / 9000000000 : ℝ) * (-(215682721839 / 1556278779664 : ℝ))⟩ =
      13 * Real.sqrt ((83420088607 / 778139389832 : ℝ) ^ 2 + (-(215682721839 / 1556278779664 : ℝ)) ^ 2) :=
    sat_canon _ _ _ hLpos
  have hback : XYZ.fromCIELUV ⟨(23157184777 / 9000000000 : ℝ), 13.0 * (23157184777 / 9000000000 : ℝ) * (83420088607 / 778139389832 : ℝ), 13.0 * (23157184777 / 9000000000 : ℝ) * (-(215682721839 / 1556278779664 : ℝ))⟩ =
      ⟨(68707196236802375606303518646193539 / 115882945227143607829773308412000000 : ℝ), (23157184777 / 81297000000 : ℝ), (1011406534908982226986239945047087243 / 1042946507044292470467959775708000000 : ℝ)⟩ := by
    rw [xyz_canon_low (23157184777 / 9000000000 : ℝ) (83420088607 / 778139389832 : ℝ) (-(215682721839 / 1556278779664 : ℝ)) hL0 hL8]
    norm_num [XYZ.mk.injEq, Y_REF]
  obtain ⟨hs1, hs2⟩ := sqrt_bounds (219 / 1250 : ℝ) (877 / 5000 : ℝ) ((83420088607 / 778139389832 : ℝ) ^ 2 + (-(215682721839 / 1556278779664 : ℝ)) ^ 2)
    (by norm_num) (by norm_num) (by norm_num) (by norm_num)
  have hsq0 : (0 : ℝ) ≤ Real.sqrt ((83420088607 / 778139389832 : ℝ) ^ 2 + (-(215682721839 / 1556278779664 : ℝ)) ^ 2) := Real.sqrt_nonneg _
  have hdirect : RGBW.fromRGB ⟨1, 0, 1⟩ = ⟨1, 0, 1, 0⟩ := by
    norm_num [RGBW.fromRGB, RGBW.mk.injEq]
  rw [hluv, hdirect]
  simp only [RGBW.fromCIELUV, hsat, hback]
  simp only [round2RGBW, RGBW.mk.injEq]
  refine ⟨?_, ?_, ?_, ?_⟩
  · rw [round2_one]
    exact chan_one _ (by nlinarith [hs1])
  · rw [round2_zero]
    exact chan_small _ (by nlinarith [hsq0]) (by nlinarith [hs2])
  · rw [round2_one]
    exact chan_one _ (by nlinarith [hs1])
  · rw [round2_zero]
    exact chan_zero _ (by nlinarith [hs1])

lemma c3_yellow :
    round2RGBW (RGBW.fromCIELUV (CIELUV.fromRGB ⟨1, 1, 0⟩)) =
      round2RGBW (RGBW.fromRGB ⟨1, 1, 0⟩) := by
  have hxyz : XYZ.fromRGB ⟨1, 1, 0⟩ = ⟨(308013 / 400000 : ℝ), (9278251 / 10000000 : ℝ), (1385259 / 10000000 : ℝ)⟩ := by
    simp only [XYZ.fromRGB, srgb_to_linear_one, srgb_to_linear_zero]
    norm_num [XYZ.mk.injEq]
  have hg1 : ¬((308013 / 400000 : ℝ) = 0.0 ∧ (9278251 / 10000000 : ℝ) = 0.0 ∧ (1385259 / 10000000 : ℝ) = 0.0) := by norm_num
  have hg2 : (9278251 / 10000000 : ℝ) / Y_REF > E := by norm_num [Y_REF, E]
  have hluv : CIELUV.fromRGB ⟨1, 1, 0⟩ =
      ⟨(116.0 * ((9278251 / 10000000 : ℝ) / Y_REF) ^ ((1.0 : ℝ) / 3.0) - 16.0), 13.0 * (116.0 * ((9278251 / 10000000 : ℝ) / Y_REF) ^ ((1.0 : ℝ) / 3.0) - 16.0) * (147582660817 / 24186124274536 : ℝ), 13.0 * (116.0 * ((9278251 / 10000000 : ℝ) / Y_REF) ^ ((1.0 : ℝ) / 3.0) - 16.0) * (255655418784 / 3023265534317 : ℝ)⟩ := by
    rw [CIELUV.fromRGB, hxyz]
    simp only [CIELUV.fromXYZ]
    rw [if_neg hg1, if_pos hg2]
    refine CIELUV.ext rfl ?_ ?_ <;>
      (dsimp only; congr 1; norm_num [U_PRIME_REF, V_PRIME_REF, X_REF, Y_REF, Z_REF])
  have hbase : (0 : ℝ) ≤ (9278251 / 10000000 : ℝ) / Y_REF := by norm_num [Y_REF]
  have hT3 : (((9278251 / 10000000 : ℝ) / Y_REF) ^ ((1.0 : ℝ) / 3.0)) ^ (3 : ℕ) = (9278251 / 10000000 : ℝ) / Y_REF := by
    rw [← Real.rpow_natCast (((9278251 / 10000000 : ℝ) / Y_REF) ^ ((1.0 : ℝ) / 3.0)) 3, ← Real.rpow_mul hbase]
    norm_num
  have hTnn : (0 : ℝ) ≤ ((9278251 / 10000000 : ℝ) / Y_REF) ^ ((1.0 : ℝ) / 3.0) := Real.rpow_nonneg hbase _
  have hT1 : (2101 / 10000 : ℝ) ≤ ((9278251 / 10000000 : ℝ) / Y_REF) ^ ((1.0 : ℝ) / 3.0) :=
    le_of_pow_le_pow_left₀ (show (3 : ℕ) ≠ 0 by norm_num) hTnn
      (by rw [hT3]; norm_num [Y_REF])
  have hLpos : (0 : ℝ) < (116.0 * ((9278251 / 10000000 : ℝ) / Y_REF) ^ ((1.0 : ℝ) / 3.0) - 16.0) := by linarith
  have hL8 : (116.0 * ((9278251 / 10000000 : ℝ) / Y_REF) ^ ((1.0 : ℝ) / 3.0) - 16.0) > 8.0 := by norm_num; linarith
  have hL0 : ¬((116.0 * ((9278251 / 10000000 : ℝ) / Y_REF) ^ ((1.0 : ℝ) / 3.0) - 16.0) = 0.0) := by intro hc; norm_num at hc; linarith
  have hsat : CIELUV.saturation ⟨(116.0 * ((9278251 / 10000000 : ℝ) / Y_REF) ^ ((1.0 : ℝ) / 3.0) - 16.0), 13.0 * (116.0 * ((9278251 / 10000000 : ℝ) / Y_REF) ^ ((1.0 : ℝ) / 3.0) - 16.0) * (147582660817 / 24186124274536 : ℝ), 13.0 * (116.0 * ((9278251 / 10000000 : ℝ) / Y_REF) ^ ((1.0 : ℝ) / 3.0) - 16.0) * (255655418784 / 3023265534317 : ℝ)⟩ =
      13 * Real.sqrt ((147582660817 / 24186124274536 : ℝ) ^ 2 + (255655418784 / 3023265534317 : ℝ) ^ 2) :=
    sat_canon _ _ _ hLpos
  have hback : XYZ.fromCIELUV ⟨(116.0 * ((9278251 / 10000000 : ℝ) / Y_REF) ^ ((1.0 : ℝ) / 3.0) - 16.0), 13.0 * (116.0 * ((9278251 / 10000000 : ℝ) / Y_REF) ^ ((1.0 : ℝ) / 3.0) - 16.0) * (147582660817 / 24186124274536 : ℝ), 13.0 * (116.0 * ((9278251 / 10000000 : ℝ) / Y_REF) ^ ((1.0 : ℝ) / 3.0) - 16.0) * (255655418784 / 3023265534317 : ℝ)⟩ =
      ⟨(5148375536969047550409129236569149 / 6686044474055822740237825720000000 : ℝ), (9278251 / 10000000 : ℝ), (927215167734549265879783558935757 / 6686044474055822740237825720000000 : ℝ)⟩ := by
    rw [xyz_canon_high (116.0 * ((9278251 / 10000000 : ℝ) / Y_REF) ^ ((1.0 : ℝ) / 3.0) - 16.0) (147582660817 / 24186124274536 : ℝ) (255655418784 / 3023265534317 : ℝ) hL0 hL8]
    rw [show ((116.0 * ((9278251 / 10000000 : ℝ) / Y_REF) ^ ((1.0 : ℝ) / 3.0) - 16.0) + 16.0) / 116.0 = ((9278251 / 10000000 : ℝ) / Y_REF) ^ ((1.0 : ℝ) / 3.0) by ring]
    rw [hT3]
    norm_num [XYZ.mk.injEq, Y_REF]
  obtain ⟨hs1, hs2⟩ := sqrt_bounds (847 / 10000 : ℝ) (849 / 10000 : ℝ) ((147582660817 / 24186124274536 : ℝ) ^ 2 + (255655418784 / 3023265534317 : ℝ) ^ 2)
    (by norm_num) (by norm_num) (by norm_num) (by norm_num)
  have hsq0 : (0 : ℝ) ≤ Real.sqrt ((147582660817 / 24186124274536 : ℝ) ^ 2 + (255655418784 / 3023265534317 : ℝ) ^ 2) := Real.sqrt_nonneg _
  have hdirect : RGBW.fromRGB ⟨1, 1, 0⟩ = ⟨1, 1, 0, 0⟩ := by
    norm_num [RGBW.fromRGB, RGBW.mk.injEq]
  rw [hluv, hdirect]
  simp only [RGBW.fromCIELUV, hsat, hback]
  simp only [round2RGBW, RGBW.mk.injEq]
  refine ⟨?_, ?_, ?_, ?_⟩
  · rw [round2_one]
    exact chan_one _ (by nlinarith [hs1])
  · rw [round2_one]
    exact chan_one _ (by nlinarith [hs1])
  · rw [round2_zero]
    exact chan_small _ (by nlinarith [hsq0]) (by nlinarith [hs2])
  · rw [round2_zero]
    exact chan_zero _ (by nlinarith [hs1])

/-- C3: for each of the five fully saturated colors pure red, green, blue,
magenta and yellow, converting RGB directly to RGBW and converting RGB to
CIELUV and then to RGBW yield the same quadruple after rounding each of the
four channels to two decimal places. -/
theorem saturated_clean_conversion :
    round2RGBW (RGBW.fromCIELUV (CIELUV.fromRGB ⟨1, 0, 0⟩)) =
      round2RGBW (RGBW.fromRGB ⟨1, 0, 0⟩) ∧
    round2RGBW (RGBW.fromCIELUV (CIELUV.fromRGB ⟨0, 1, 0⟩)) =
      round2RGBW (RGBW.fromRGB ⟨0, 1, 0⟩) ∧
    round2RGBW (RGBW.fromCIELUV (CIELUV.fromRGB ⟨0, 0, 1⟩)) =
      round2RGBW (RGBW.fromRGB ⟨0, 0, 1⟩) ∧
    round2RGBW (RGBW.fromCIELUV (CIELUV.fromRGB ⟨1, 1, 0⟩)) =
      round2RGBW (RGBW.fromRGB ⟨1, 1, 0⟩) ∧
    round2RGBW (RGBW.fromCIELUV (CIELUV.fromRGB ⟨1, 0, 1⟩)) =
      round2RGBW (RGBW.fromRGB ⟨1, 0, 1⟩) :=
  ⟨c3_red, c3_green, c3_blue, c3_yellow, c3_magenta⟩

end Colorspace
